import Mathlib

/-!
Verification of the `dcrawl` crawler/generator core.

This file gives a shallow embedding of the pure logic of the repository:

* `generator.py` — the Tailwind style classifier (`_generate_tailwind_classes`,
  `_is_tailwind_class`), text cleaning (`_clean_text`) and per-element JSX
  rendering (`_element_to_jsx`, `_get_jsx_attributes`);
* `crawler.py` — the in-page snapshot function, per-element extraction
  (`_extract_element_data`), the selector-table walk (`_extract_elements`)
  and the `crawl` orchestration (with its page open/close side effects made
  explicit as an outcome record over an abstract page model);
* `utils.py` — the unique-output-path resolution of `save_file` (the
  filesystem is modelled as the list of files present in the target
  directory, and the decimal rendering of the suffix counter is embedded
  directly).

Python strings are modelled as Lean `String`s operated on through their
character lists; `\s`, `str.strip`, `str.split()` are taken over the ASCII
whitespace class, and `\d` over ASCII digits (the repository only ever feeds
CSS keywords, Tailwind tokens and file names through these functions).
-/

namespace DCrawl

/-- Whitespace class used by Python `str.strip`, `str.split()` and `\s`
(restricted to ASCII). -/
def isPySpace (c : Char) : Bool :=
  c = ' ' || c = '\t' || c = '\n' || c = '\r' || c = '\x0b' || c = '\x0c'

/-- List-level substring search (needle, haystack). -/
def containsSub (needle : List Char) : List Char → Bool
  | [] => needle.isEmpty
  | c :: rest => List.isPrefixOf needle (c :: rest) || containsSub needle rest

/-- Python's substring containment operator `needle in hay`. -/
def pyIn (needle hay : String) : Bool :=
  containsSub needle.data hay.data

/-- Python `s.startswith(pre)`. -/
def pyStartsWith (pre s : String) : Bool :=
  List.isPrefixOf pre.data s.data

/-- Python `d.get(k, '')` on a string-keyed dict, modelled as an association
list with first-match lookup. -/
def pyGet (m : List (String × String)) (k : String) : String :=
  match m.find? (fun p => p.1 = k) with
  | some p => p.2
  | none => ""

/-- Python `d.get(k)` (no default): `none` when the key is absent. -/
def pyGetOpt (m : List (String × String)) (k : String) : Option String :=
  (m.find? (fun p => p.1 = k)).map (fun p => p.2)

/-- Accumulator for `pySplitWs`: current (reversed) chunk of non-space
characters. -/
def pySplitWsAux : List Char → List Char → List String
  | [], acc => if acc.isEmpty then [] else [⟨acc.reverse⟩]
  | c :: rest, acc =>
    if isPySpace c then
      if acc.isEmpty then pySplitWsAux rest []
      else ⟨acc.reverse⟩ :: pySplitWsAux rest []
    else pySplitWsAux rest (c :: acc)

/-- Python `s.split()`: split on runs of whitespace, dropping empty pieces. -/
def pySplitWs (s : String) : List String :=
  pySplitWsAux s.data []

/-- Python `s.strip()` (ASCII whitespace). -/
def pyStrip (s : String) : String :=
  ⟨((s.data.dropWhile isPySpace).reverse.dropWhile isPySpace).reverse⟩

/-- Python slice `s[:n]` (also JS `substring(0, n)`). -/
def pyTruncate (s : String) (n : Nat) : String :=
  ⟨s.data.take n⟩

/-- Kernel of `dict.fromkeys`-style deduplication: drop characters already
seen, keeping the first occurrence of each string. -/
def dedupFirstAux (seen : List String) : List String → List String
  | [] => []
  | x :: xs =>
    if x ∈ seen then dedupFirstAux seen xs
    else x :: dedupFirstAux (x :: seen) xs

/-- Python `list(dict.fromkeys(l))`: deduplicate preserving first-occurrence
order. -/
def dedupFirst (l : List String) : List String :=
  dedupFirstAux [] l

/-! ## Style classifier (`generator.py`, `_generate_tailwind_classes`) -/

/-- Display branch: `'flex' in display` / `'block' in display`. -/
def displayClasses (styles : List (String × String)) : List String :=
  if pyIn "flex" (pyGet styles "display") then ["flex"]
  else if pyIn "block" (pyGet styles "display") then ["block"]
  else []

/-- Font-size branch (substring containment, as in the source). -/
def fontSizeClasses (styles : List (String × String)) : List String :=
  let font_size := pyGet styles "fontSize"
  if pyIn "24px" font_size || pyIn "2rem" font_size then ["text-2xl"]
  else if pyIn "20px" font_size then ["text-xl"]
  else if pyIn "18px" font_size then ["text-lg"]
  else if pyIn "14px" font_size then ["text-sm"]
  else []

/-- Font-weight branch (exact membership, as in the source). -/
def fontWeightClasses (styles : List (String × String)) : List String :=
  let font_weight := pyGet styles "fontWeight"
  if font_weight = "700" || font_weight = "bold" then ["font-bold"]
  else if font_weight = "600" || font_weight = "500" then ["font-medium"]
  else []

/-- Text-color branch: black, white, then gray. -/
def colorClasses (styles : List (String × String)) : List String :=
  let color := pyGet styles "color"
  if pyIn "rgb(0, 0, 0)" color || pyIn "#000" color then ["text-black"]
  else if pyIn "rgb(255, 255, 255)" color || pyIn "#fff" color then ["text-white"]
  else if pyIn "gray" color || pyIn "grey" color then ["text-gray-600"]
  else []

/-- Background-color branch: white and black only (no gray case). -/
def bgColorClasses (styles : List (String × String)) : List String :=
  let bg_color := pyGet styles "backgroundColor"
  if pyIn "rgb(255, 255, 255)" bg_color || pyIn "#fff" bg_color then ["bg-white"]
  else if pyIn "rgb(0, 0, 0)" bg_color || pyIn "#000" bg_color then ["bg-black"]
  else []

/-- Padding branch: guarded by Python truthiness of the padding value. -/
def paddingClasses (styles : List (String × String)) : List String :=
  let padding := pyGet styles "padding"
  if padding ≠ "" && padding ≠ "0px" then
    if pyIn "16px" padding || pyIn "1rem" padding then ["p-4"]
    else if pyIn "8px" padding then ["p-2"]
    else ["p-2"]
  else []

/-- Border-radius branch. -/
def borderRadiusClasses (styles : List (String × String)) : List String :=
  let border_radius := pyGet styles "borderRadius"
  if border_radius ≠ "" && border_radius ≠ "0px" then ["rounded"] else []

/-- Box-shadow branch. -/
def boxShadowClasses (styles : List (String × String)) : List String :=
  let box_shadow := pyGet styles "boxShadow"
  if box_shadow ≠ "" && box_shadow ≠ "none" then ["shadow"] else []

/-- Ascii-digit run, the `\d+` of the recognizer patterns. -/
def isDigits (s : String) : Bool :=
  s ≠ "" && s.data.all Char.isDigit

/-- Helper for patterns of shape `^pre\d+$`. -/
def prefixThenDigits (pre s : String) : Bool :=
  pyStartsWith pre s && isDigits (s.drop pre.length)

/-- Pattern `^(p|m|px|py|mx|my|pt|pb|pl|pr|mt|mb|ml|mr)-\d+$`. -/
def twSpacingPat (s : String) : Bool :=
  ["p", "m", "px", "py", "mx", "my", "pt", "pb", "pl", "pr", "mt", "mb", "ml", "mr"].any
    (fun p => prefixThenDigits (p ++ "-") s)

/-- Pattern `^text-(xs|sm|base|lg|xl|2xl|3xl|4xl|5xl|6xl)$`. -/
def twTextSizePat (s : String) : Bool :=
  ["xs", "sm", "base", "lg", "xl", "2xl", "3xl", "4xl", "5xl", "6xl"].any
    (fun z => s = "text-" ++ z)

/-- Pattern `^text-(black|white|gray|red|blue|green|yellow)-\d+$`. -/
def twTextColorPat (s : String) : Bool :=
  ["black", "white", "gray", "red", "blue", "green", "yellow"].any
    (fun c => prefixThenDigits ("text-" ++ c ++ "-") s)

/-- Pattern `^bg-(black|white|gray|red|blue|green|yellow)-\d+$`. -/
def twBgColorPat (s : String) : Bool :=
  ["black", "white", "gray", "red", "blue", "green", "yellow"].any
    (fun c => prefixThenDigits ("bg-" ++ c ++ "-") s)

/-- Pattern `^font-(thin|light|normal|medium|semibold|bold|extrabold|black)$`. -/
def twFontPat (s : String) : Bool :=
  ["thin", "light", "normal", "medium", "semibold", "bold", "extrabold", "black"].any
    (fun w => s = "font-" ++ w)

/-- Pattern `^(flex|block|inline|hidden|relative|absolute|fixed)$`. -/
def twDisplayPat (s : String) : Bool :=
  ["flex", "block", "inline", "hidden", "relative", "absolute", "fixed"].contains s

/-- Pattern `^rounded(-sm|-md|-lg|-xl|-full)?$`. -/
def twRoundedPat (s : String) : Bool :=
  s = "rounded" || ["-sm", "-md", "-lg", "-xl", "-full"].any (fun z => s = "rounded" ++ z)

/-- Pattern `^shadow(-sm|-md|-lg|-xl|-2xl)?$`. -/
def twShadowPat (s : String) : Bool :=
  s = "shadow" || ["-sm", "-md", "-lg", "-xl", "-2xl"].any (fun z => s = "shadow" ++ z)

/-- Disjunction of the eight anchored pattern bodies. -/
def twPatternCore (s : String) : Bool :=
  twSpacingPat s || twTextSizePat s || twTextColorPat s || twBgColorPat s ||
  twFontPat s || twDisplayPat s || twRoundedPat s || twShadowPat s

/-- Model of `_is_tailwind_class` (`generator.py`): `re.match` against the
eight anchored patterns. Python's `$` also matches just before a trailing
newline, which the second disjunct reproduces (it is vacuous on the
whitespace-free tokens produced by `str.split()`). -/
def isTailwindClass (s : String) : Bool :=
  twPatternCore s ||
  (s.data.getLast? = some '\n' && twPatternCore (s.dropRight 1))

/-- Existing-class carryover pass of `_generate_tailwind_classes`:
`element.classes.split() if element.classes else []`, keeping the tokens
recognized by `_is_tailwind_class`. -/
def existingCarried (classes : String) : List String :=
  (if classes = "" then [] else pySplitWs classes).filter isTailwindClass

/-- Class list built by `_generate_tailwind_classes` before deduplication and
capping: the branch outputs in source order, then the carried-over existing
tokens. -/
def rawClasses (styles : List (String × String)) (classes : String) : List String :=
  displayClasses styles ++ fontSizeClasses styles ++ fontWeightClasses styles ++
  colorClasses styles ++ bgColorClasses styles ++ paddingClasses styles ++
  borderRadiusClasses styles ++ boxShadowClasses styles ++ existingCarried classes

/-- Output token sequence of the classifier: deduplicate keeping first
occurrences, cap at 8, and fall back to `p-2` when empty. -/
def classifyTokens (styles : List (String × String)) (classes : String) : List String :=
  let cs := (dedupFirst (rawClasses styles classes)).take 8
  if cs = [] then ["p-2"] else cs

/-- Model of `_generate_tailwind_classes` (`generator.py`): the final
space-joined class string, `' '.join(classes) if classes else 'p-2'`. -/
def generateTailwindClasses (styles : List (String × String)) (classes : String) : String :=
  let cs := (dedupFirst (rawClasses styles classes)).take 8
  if cs = [] then "p-2" else " ".intercalate cs

/-! ## Data model (`crawler.py`) -/

/-- Bounding rectangle from `getBoundingClientRect` (JS numbers modelled as
rationals). -/
structure Rect where
  x : Rat
  y : Rat
  width : Rat
  height : Rat
deriving DecidableEq

/-- The `Element` dataclass of `crawler.py`. -/
structure Element where
  tag : String
  text : String
  classes : String
  styles : List (String × String)
  attributes : List (String × String)
  position : Rect
  category : String
deriving DecidableEq

/-- The `CrawlResult` dataclass of `crawler.py`. -/
structure CrawlResult where
  url : String
  title : String
  elements : List Element
deriving DecidableEq

/-- Raw DOM node as seen by the in-page snapshot script: the IDL attributes
the script reads. `computed` is `window.getComputedStyle(el)` as a mapping
from camelCase accessor names to resolved values. -/
structure RawNode where
  tagName : String
  textContent : String
  className : String
  computed : List (String × String)
  attrs : List (String × String)
  rect : Rect
deriving DecidableEq

/-- Result record of the snapshot script evaluated against one node. -/
structure SnapshotData where
  tag : String
  text : String
  classes : String
  styles : List (String × String)
  attributes : List (String × String)
  position : Rect
  visible : Bool
deriving DecidableEq

/-- Ascii lower-casing of a character (`tagName.toLowerCase()` on tag names). -/
def charLower (c : Char) : Char :=
  if 65 ≤ c.toNat && c.toNat ≤ 90 then Char.ofNat (c.toNat + 32) else c

/-- Ascii `toLowerCase`. -/
def pyLower (s : String) : String :=
  ⟨s.data.map charLower⟩

/-- Key order of the `styles` object literal built by the snapshot script. -/
def styleKeys : List String :=
  ["display", "position", "width", "height", "padding", "margin", "fontSize",
   "fontWeight", "color", "backgroundColor", "borderRadius", "boxShadow"]

/-- Model of the in-page snapshot script of `_extract_element_data`
(`crawler.py`): builds the returned object literal, including the `styles`
mapping (whose keys are the literal camelCase identifiers of the script) and
the `visible` flag. -/
def snapshotData (el : RawNode) : SnapshotData :=
  { tag := pyLower el.tagName
    text := pyTruncate (pyStrip el.textContent) 100
    classes := el.className
    styles :=
      [("display", pyGet el.computed "display"),
       ("position", pyGet el.computed "position"),
       ("width", pyGet el.computed "width"),
       ("height", pyGet el.computed "height"),
       ("padding", pyGet el.computed "padding"),
       ("margin", pyGet el.computed "margin"),
       ("fontSize", pyGet el.computed "fontSize"),
       ("fontWeight", pyGet el.computed "fontWeight"),
       ("color", pyGet el.computed "color"),
       ("backgroundColor", pyGet el.computed "backgroundColor"),
       ("borderRadius", pyGet el.computed "borderRadius"),
       ("boxShadow", pyGet el.computed "boxShadow")]
    attributes := el.attrs
    position := el.rect
    visible := decide (el.rect.width > 0) && decide (el.rect.height > 0) &&
               pyGet el.computed "display" ≠ "none" }

/-- Model of `_extract_element_data` (`crawler.py`): evaluating the snapshot
may throw (the handle is an `Except`), any failure is caught and reported as
`none`; nodes that are invisible or have falsy (empty) text are dropped;
otherwise the `Element` is assembled from the snapshot plus the rule's
category. -/
def extractElementData (handle : Except String RawNode) (category : String) :
    Option Element :=
  match handle with
  | .error _ => none
  | .ok el =>
    let data := snapshotData el
    if !data.visible || data.text = "" then none
    else some
      { tag := data.tag
        text := data.text
        classes := data.classes
        styles := data.styles
        attributes := data.attributes
        position := data.position
        category := category }

/-- The fixed `(selector, category)` table of `_extract_elements`. -/
def selectors : List (String × String) :=
  [("nav, [role=\"navigation\"]", "navigation"),
   ("h1, h2, h3, h4, h5, h6", "header"),
   ("button, [role=\"button\"]", "button"),
   ("a[href]", "link"),
   ("img[src]", "image"),
   ("input, textarea, select", "form"),
   ("p, span, div", "content")]

/-- Abstract rendered page: outcomes of the browser-automation calls `crawl`
and `_extract_elements` perform against it. `queryAll` is
`query_selector_all` (a whole rule may throw), returning node handles whose
snapshot evaluation may itself throw. -/
structure PageModel where
  gotoResult : Except String (Option Nat)
  waitResult : Except String Unit
  titleResult : Except String String
  closeResult : Except String Unit
  queryAll : String → Except String (List (Except String RawNode))

/-- Model of `_extract_elements` (`crawler.py`): walk the selector table in
order; a rule whose query throws contributes nothing; otherwise take the
first 10 handles and keep the successfully extracted elements. -/
def extractElements (page : PageModel) : List Element :=
  selectors.foldl
    (fun elements sc =>
      match page.queryAll sc.1 with
      | .error _ => elements
      | .ok handles =>
        elements ++ (handles.take 10).filterMap (fun h => extractElementData h sc.2))
    []

/-- Per-rule contribution of `_extract_elements`, for stating its shape. -/
def ruleContrib (page : PageModel) (sc : String × String) : List Element :=
  match page.queryAll sc.1 with
  | .error _ => []
  | .ok handles => (handles.take 10).filterMap (fun h => extractElementData h sc.2)

/-! ## Crawl orchestration (`crawler.py`, `crawl`) -/

/-- Outcome of one `crawl` call: the returned value or raised error, plus the
page-level side effects (was a page opened, was it closed). -/
structure CrawlOutcome where
  result : Except String CrawlResult
  pageOpened : Bool
  pageClosed : Bool

/-- Message wrapping of the `except` clause of `crawl`. -/
def wrapCrawlErr (url msg : String) : String :=
  "Failed to crawl " ++ url ++ ": " ++ msg

/-- Status part of the bad-response message
(`response.status if response else 'No response'`). -/
def httpStatusText : Option Nat → String
  | none => "No response"
  | some s => Nat.repr s

/-- Message of the `CrawlingError` raised on a missing or bad response. -/
def loadFailMsg (url : String) (resp : Option Nat) : String :=
  "Failed to load " ++ url ++ ": HTTP " ++ httpStatusText resp

/-- Model of `crawl` (`crawler.py`). The browser is abstracted to whether it
is initialized plus the outcome of `new_page()`; the opened page is the
`PageModel`. The body mirrors the source: guard on the session, then inside
the `try` open the page, navigate, check the response, wait, read the title,
extract, close, and return; any failure raised inside the `try` (including
the bad-response `CrawlingError`) is wrapped once by the `except` clause.
`page.close()` is only reached on the success path. -/
def crawl (browserInitialized : Bool) (newPage : Except String PageModel)
    (url : String) : CrawlOutcome :=
  if !browserInitialized then
    { result := .error "Browser not initialized", pageOpened := false, pageClosed := false }
  else
    match newPage with
    | .error e =>
      { result := .error (wrapCrawlErr url e), pageOpened := false, pageClosed := false }
    | .ok page =>
      match page.gotoResult with
      | .error e =>
        { result := .error (wrapCrawlErr url e), pageOpened := true, pageClosed := false }
      | .ok resp =>
        match resp with
        | none =>
          { result := .error (wrapCrawlErr url (loadFailMsg url none)),
            pageOpened := true, pageClosed := false }
        | some status =>
          if status ≥ 400 then
            { result := .error (wrapCrawlErr url (loadFailMsg url (some status))),
              pageOpened := true, pageClosed := false }
          else
            match page.waitResult with
            | .error e =>
              { result := .error (wrapCrawlErr url e), pageOpened := true, pageClosed := false }
            | .ok _ =>
              match page.titleResult with
              | .error e =>
                { result := .error (wrapCrawlErr url e), pageOpened := true, pageClosed := false }
              | .ok title =>
                let elements := extractElements page
                match page.closeResult with
                | .error e =>
                  { result := .error (wrapCrawlErr url e), pageOpened := true, pageClosed := false }
                | .ok _ =>
                  { result := .ok { url := url, title := title, elements := elements },
                    pageOpened := true, pageClosed := true }

/-- Boolean view of an `Except` value. -/
def exceptIsOk : Except String α → Bool
  | .ok _ => true
  | .error _ => false

/-- The failure condition enumerated by the spec for `crawl`: session not
initialized, opening the page throws, navigation throws, no response, HTTP
status at least 400, or the wait / title / close step throws. -/
def crawlFailureCondition (browserInitialized : Bool)
    (newPage : Except String PageModel) : Bool :=
  !browserInitialized ||
  match newPage with
  | .error _ => true
  | .ok page =>
    match page.gotoResult with
    | .error _ => true
    | .ok none => true
    | .ok (some status) =>
      decide (status ≥ 400) || !exceptIsOk page.waitResult ||
      !exceptIsOk page.titleResult || !exceptIsOk page.closeResult

/-! ## JSX rendering (`generator.py`) -/

/-- Python `text.replace('"', '\\"')` on the character list. -/
def escapeQuotes : List Char → List Char
  | [] => []
  | c :: rest =>
    if c = '"' then '\\' :: '"' :: escapeQuotes rest
    else c :: escapeQuotes rest

/-- Python `text.replace('\n', ' ')` on the character list. -/
def newlineToSpace : List Char → List Char
  | [] => []
  | c :: rest => (if c = '\n' then ' ' else c) :: newlineToSpace rest

/-- Python `re.sub(r'\s+', ' ', text)`: every maximal whitespace run becomes
one space. The flag records whether the previous character was whitespace. -/
def collapseWsAux (prevSpace : Bool) : List Char → List Char
  | [] => []
  | c :: rest =>
    if isPySpace c then
      if prevSpace then collapseWsAux true rest
      else ' ' :: collapseWsAux true rest
    else c :: collapseWsAux false rest

/-- Model of `_clean_text` (`generator.py`): empty in, empty out; otherwise
strip, escape double quotes, turn newlines into spaces, collapse whitespace
runs. -/
def cleanText (text : String) : String :=
  if text = "" then ""
  else ⟨collapseWsAux false (newlineToSpace (escapeQuotes (pyStrip text).data))⟩

/-- Truthiness of `element.attributes.get(k)`: present and non-empty. -/
def attrTruthy (e : Element) (k : String) : Bool :=
  match pyGetOpt e.attributes k with
  | some v => v ≠ ""
  | none => false

/-- Model of `_get_jsx_attributes` (`generator.py`): `className` when the
class string is non-empty, then the tag-specific attributes for `a`, `img`
and `input`. -/
def getJsxAttributes (e : Element) (classes : String) : String :=
  let attrs : List String := []
  let attrs := if classes ≠ "" then attrs ++ ["className=\"" ++ classes ++ "\""] else attrs
  let attrs :=
    if e.tag = "a" && attrTruthy e "href" then
      let href := pyGet e.attributes "href"
      if pyStartsWith "http" href then attrs ++ ["href=\"" ++ href ++ "\""]
      else attrs ++ ["href=\"#\""]
    else attrs
  let attrs :=
    if e.tag = "img" && attrTruthy e "src" then
      attrs ++ ["src=\"" ++ pyGet e.attributes "src" ++ "\"",
                "alt=\"" ++ ((pyGetOpt e.attributes "alt").getD "") ++ "\""]
    else attrs
  let attrs :=
    if e.tag = "input" then
      (attrs ++ ["type=\"" ++ ((pyGetOpt e.attributes "type").getD "text") ++ "\""]) ++
      (if attrTruthy e "placeholder" then
        ["placeholder=\"" ++ pyGet e.attributes "placeholder" ++ "\""]
      else [])
    else attrs
  if attrs ≠ [] then " " ++ " ".intercalate attrs else ""

/-- Self-closing tag list of `_element_to_jsx`. -/
def selfClosingTags : List String := ["img", "input", "br", "hr"]

/-- Model of `_element_to_jsx` (`generator.py`): classify, clean the text,
then render either a self-closing tag or a regular tag whose cleaned text is
truncated to 50 characters plus `"..."` when longer than 50. The `indent`
argument is computed but unused in the source and is ignored here too. -/
def elementToJsx (e : Element) (_indent : Nat := 6) : String :=
  let classes := generateTailwindClasses e.styles e.classes
  let text := cleanText e.text
  if selfClosingTags.contains e.tag then
    let attrs := getJsxAttributes e classes
    "<" ++ e.tag ++ attrs ++ " />"
  else
    let attrs := getJsxAttributes e classes
    let text := if text.length > 50 then pyTruncate text 50 ++ "..." else text
    "<" ++ e.tag ++ attrs ++ ">" ++ text ++ "</" ++ e.tag ++ ">"

/-! ## Output-path resolution (`utils.py`, `save_file`) -/

/-- Decimal digits of `n`, most significant first, by fueled division
(`fuel ≥ n` renders `n` fully). This embeds Python's decimal rendering of
the counter in `f"{stem}_{counter}{suffix}"`. -/
def decDigitsAux : Nat → Nat → List Char
  | 0, _ => []
  | fuel + 1, n =>
    if n = 0 then []
    else decDigitsAux fuel (n / 10) ++ [Char.ofNat (48 + n % 10)]

/-- Decimal rendering of a natural number. -/
def natToDecimal (n : Nat) : String :=
  if n = 0 then "0" else ⟨decDigitsAux n n⟩

/-- Decoder used to prove `natToDecimal` injective. -/
def charsToNat (l : List Char) : Nat :=
  l.foldl (fun a c => a * 10 + (c.toNat - 48)) 0

/-- Index of the last `'.'` of the character list, if any
(Python `name.rfind('.')`). -/
def rfindDotIdx (l : List Char) : Option Nat :=
  (l.reverse.findIdx? (fun c => c = '.')).map (fun j => l.length - 1 - j)

/-- Model of `pathlib`'s `stem`/`suffix` split of a file name: the extension
starts at the last dot, provided that dot is neither the first nor the last
character; otherwise the suffix is empty. -/
def pathSplitExt (name : String) : String × String :=
  match rfindDotIdx name.data with
  | some i =>
    if 0 < i ∧ i < name.data.length - 1 then (⟨name.data.take i⟩, ⟨name.data.drop i⟩)
    else (name, "")
  | none => (name, "")

/-- Candidate file name `f"{stem}_{counter}{suffix}"`. -/
def mkCandidate (stem sfx : String) (k : Nat) : String :=
  stem ++ "_" ++ natToDecimal k ++ sfx

/-- The `while path.exists()` loop of `save_file`, fueled: starting from
counter `k`, return the first candidate not present in `existing`. -/
def findFreeName (existing : List String) (stem sfx : String) : Nat → Nat → String
  | 0, k => mkCandidate stem sfx k
  | fuel + 1, k =>
    if mkCandidate stem sfx k ∈ existing then findFreeName existing stem sfx fuel (k + 1)
    else mkCandidate stem sfx k

/-- Path resolution of `save_file` (`utils.py`) over the list of file names
already present in the target directory: keep the requested name when free,
otherwise append `_1`, `_2`, … before the extension until a free name is
found. The fuel `existing.length + 1` is enough for the loop to reach a free
candidate. -/
def resolvePath (existing : List String) (name : String) : String :=
  if name ∈ existing then
    let stem := (pathSplitExt name).1
    let sfx := (pathSplitExt name).2
    findFreeName existing stem sfx (existing.length + 1) 1
  else name

/-- Model of `save_file` (`utils.py`): the directory is the list of
`(name, content)` pairs; the write appends the new file under the resolved
name and returns the new directory contents and the written path. -/
def saveFile (fs : List (String × String)) (filepath content : String) :
    List (String × String) × String :=
  let path := resolvePath (fs.map Prod.fst) filepath
  (fs ++ [(path, content)], path)

/-- Gray background utility token: starts with `bg-` and mentions gray or
grey. -/
def isGrayBgToken (t : String) : Bool :=
  pyStartsWith "bg-" t && (pyIn "gray" t || pyIn "grey" t)

/-- Every token the style-driven branches of `_generate_tailwind_classes`
can append (the existing-class pass aside). -/
def twFixedTokens : List String :=
  ["flex", "block", "text-2xl", "text-xl", "text-lg", "text-sm", "font-bold",
   "font-medium", "text-black", "text-white", "text-gray-600", "bg-white",
   "bg-black", "p-4", "p-2", "rounded", "shadow"]

/-! ## Concrete fixtures used by witnesses and counterexamples -/

/-- Fully successful page with no matching nodes. -/
def pageOkEmpty : PageModel :=
  { gotoResult := .ok (some 200), waitResult := .ok (), titleResult := .ok "T",
    closeResult := .ok (), queryAll := fun _ => .ok [] }

/-- Page whose navigation yields no response object. -/
def pageNoResp : PageModel :=
  { gotoResult := .ok none, waitResult := .ok (), titleResult := .ok "T",
    closeResult := .ok (), queryAll := fun _ => .ok [] }

/-- A visible rectangle. -/
def rect1 : Rect := { x := 0, y := 0, width := 100, height := 20 }

/-- A visible anchor node with text. -/
def nodeA : RawNode :=
  { tagName := "A", textContent := "Click", className := "",
    computed := [], attrs := [("href", "http://x")], rect := rect1 }

/-- Page on which the same node matches both the link rule and the content
rule. -/
def pageDup : PageModel :=
  { gotoResult := .ok (some 200), waitResult := .ok (), titleResult := .ok "T",
    closeResult := .ok (),
    queryAll := fun sel =>
      if sel = "a[href]" then .ok [.ok nodeA]
      else if sel = "p, span, div" then .ok [.ok nodeA]
      else .ok [] }

/-- An invisible node (zero-sized box). -/
def invisNode : RawNode :=
  { tagName := "P", textContent := "x", className := "",
    computed := [], attrs := [], rect := { x := 0, y := 0, width := 0, height := 0 } }

/-- Page whose content rule matches ten invisible nodes followed by a visible
one: the cap is applied before the visibility check, so nothing survives. -/
def pageCap : PageModel :=
  { gotoResult := .ok (some 200), waitResult := .ok (), titleResult := .ok "T",
    closeResult := .ok (),
    queryAll := fun sel =>
      if sel = "p, span, div" then
        .ok (List.replicate 10 (.ok invisNode) ++ [.ok nodeA])
      else .ok [] }

/-- A visible paragraph node with two computed styles set. -/
def node9 : RawNode :=
  { tagName := "P", textContent := "hi", className := "",
    computed := [("display", "block"), ("fontSize", "24px")], attrs := [], rect := rect1 }

/-- An element whose cleaned text has 60 characters. -/
def elLong : Element :=
  { tag := "p", text := "abcdefghijklmnopqrstuvwxyzabcdefghijklmnopqrstuvwxyzabcdefgh",
    classes := "", styles := [], attributes := [], position := rect1, category := "content" }

/-! ## Deduplication lemmas -/

theorem dedupFirstAux_sublist (l : List String) :
    ∀ seen, (dedupFirstAux seen l).Sublist l := by
  induction l with
  | nil => intro seen; simp [dedupFirstAux]
  | cons x xs ih =>
    intro seen
    unfold dedupFirstAux
    split
    · exact (ih seen).cons x
    · exact (ih (x :: seen)).cons₂ x

theorem not_mem_seen_of_mem_dedupFirstAux (l : List String) :
    ∀ seen x, x ∈ dedupFirstAux seen l → x ∉ seen := by
  induction l with
  | nil => intro seen x h; simp [dedupFirstAux] at h
  | cons y ys ih =>
    intro seen x h
    unfold dedupFirstAux at h
    split at h
    · exact ih seen x h
    · rcases List.mem_cons.mp h with rfl | h2
      · assumption
      · intro hx
        exact ih (y :: seen) x h2 (List.mem_cons_of_mem y hx)

theorem dedupFirstAux_nodup (l : List String) :
    ∀ seen, (dedupFirstAux seen l).Nodup := by
  induction l with
  | nil => intro seen; simp [dedupFirstAux]
  | cons y ys ih =>
    intro seen
    unfold dedupFirstAux
    split
    · exact ih seen
    · refine List.nodup_cons.mpr ⟨?_, ih (y :: seen)⟩
      intro hy
      exact not_mem_seen_of_mem_dedupFirstAux ys (y :: seen) y hy (List.mem_cons_self y seen)

theorem dedupFirst_sublist (l : List String) : (dedupFirst l).Sublist l :=
  dedupFirstAux_sublist l []

theorem dedupFirst_nodup (l : List String) : (dedupFirst l).Nodup :=
  dedupFirstAux_nodup l []

theorem dedupFirst_eq_nil_iff (l : List String) : dedupFirst l = [] ↔ l = [] := by
  cases l with
  | nil => simp [dedupFirst, dedupFirstAux]
  | cons x xs => simp [dedupFirst, dedupFirstAux]

/-! ## Claim theorems -/

/-- C1: for every styles mapping and every existing class-name string, the
classifier's output token list has at most 8 tokens, contains no duplicates
while preserving first-occurrence order (it is a sublist of the list of
appended tokens), and is never empty: when no rule appended a token the
result is exactly the single fallback token `p-2`. -/
theorem C1_classifier_output_invariants (styles : List (String × String)) (classes : String) :
    (classifyTokens styles classes).length ≤ 8 ∧
    (classifyTokens styles classes).Nodup ∧
    classifyTokens styles classes ≠ [] ∧
    (rawClasses styles classes = [] → classifyTokens styles classes = ["p-2"]) ∧
    (rawClasses styles classes ≠ [] →
      (classifyTokens styles classes).Sublist (rawClasses styles classes)) := by
  unfold classifyTokens
  by_cases hc : (dedupFirst (rawClasses styles classes)).take 8 = []
  · have hdedup : dedupFirst (rawClasses styles classes) = [] := by
      rcases (List.take_eq_nil_iff).mp hc with h8 | h
      · exact absurd h8 (by norm_num)
      · exact h
    have hraw : rawClasses styles classes = [] := (dedupFirst_eq_nil_iff _).mp hdedup
    refine ⟨?_, ?_, ?_, ?_, ?_⟩ <;> simp only [hc, if_pos rfl]
    · norm_num
    · simp
    · simp
    · intro _; rfl
    · intro h; exact absurd hraw h
  · have hsub : ((dedupFirst (rawClasses styles classes)).take 8).Sublist
        (rawClasses styles classes) :=
      (List.take_sublist 8 _).trans (dedupFirst_sublist _)
    refine ⟨?_, ?_, ?_, ?_, ?_⟩
    · simp [hc, List.length_take]
    · simp only [hc, if_neg hc]
      exact ((List.take_sublist 8 _)).nodup (dedupFirst_nodup _)
    · simp [hc]
    · intro hraw
      exfalso
      apply hc
      simp [hraw, dedupFirst, dedupFirstAux]
    · intro _
      simpa [hc] using hsub

/-- C1 witness: the invariants evaluated at a concrete input. -/
theorem C1_witness :
    (classifyTokens [("display", "flex")] "").length ≤ 8 ∧
    (classifyTokens [("display", "flex")] "").Nodup ∧
    classifyTokens [("display", "flex")] "" ≠ [] ∧
    (rawClasses [("display", "flex")] "" = [] →
      classifyTokens [("display", "flex")] "" = ["p-2"]) ∧
    (rawClasses [("display", "flex")] "" ≠ [] →
      (classifyTokens [("display", "flex")] "").Sublist (rawClasses [("display", "flex")] "")) :=
  C1_classifier_output_invariants [("display", "flex")] ""

/-- Structure of the appended class list: every token comes from a branch
(hence from the fixed token set) or from the existing-class carryover. -/
theorem mem_rawClasses_cases (styles : List (String × String)) (classes : String)
    (t : String) (h : t ∈ rawClasses styles classes) :
    t ∈ twFixedTokens ∨ t ∈ existingCarried classes := by
  unfold rawClasses at h
  simp only [List.mem_append, or_assoc] at h
  rcases h with h | h | h | h | h | h | h | h | h
  · exact Or.inl (by unfold displayClasses at h; split_ifs at h <;> simp_all [twFixedTokens])
  · exact Or.inl (by unfold fontSizeClasses at h; dsimp only at h; split_ifs at h <;> simp_all [twFixedTokens])
  · exact Or.inl (by unfold fontWeightClasses at h; dsimp only at h; split_ifs at h <;> simp_all [twFixedTokens])
  · exact Or.inl (by unfold colorClasses at h; dsimp only at h; split_ifs at h <;> simp_all [twFixedTokens])
  · exact Or.inl (by unfold bgColorClasses at h; dsimp only at h; split_ifs at h <;> simp_all [twFixedTokens])
  · exact Or.inl (by unfold paddingClasses at h; dsimp only at h; split_ifs at h <;> simp_all [twFixedTokens])
  · exact Or.inl (by unfold borderRadiusClasses at h; dsimp only at h; split_ifs at h <;> simp_all [twFixedTokens])
  · exact Or.inl (by unfold boxShadowClasses at h; dsimp only at h; split_ifs at h <;> simp_all [twFixedTokens])
  · exact Or.inr h

/-- Every output token is the fallback or one of the appended tokens. -/
theorem mem_classifyTokens_cases (styles : List (String × String)) (classes : String)
    (t : String) (h : t ∈ classifyTokens styles classes) :
    t = "p-2" ∨ t ∈ rawClasses styles classes := by
  unfold classifyTokens at h
  by_cases hc : (dedupFirst (rawClasses styles classes)).take 8 = []
  · rw [if_pos hc] at h
    exact Or.inl (by simpa using h)
  · rw [if_neg hc] at h
    exact Or.inr
      (((List.take_sublist 8 _).trans (dedupFirst_sublist _)).mem h)

/-- C5 counterexample: the claim quantifies over every existing-class input;
with background-color `"gray"` and existing class attribute `bg-gray-100`
the classifier does emit the gray background token `bg-gray-100`. -/
theorem C5_counterexample :
    classifyTokens [("backgroundColor", "gray")] "bg-gray-100" = ["bg-gray-100"] ∧
    isGrayBgToken "bg-gray-100" = true ∧
    pyIn "gray" (pyGet [("backgroundColor", "gray")] "backgroundColor") = true := by
  decide

/-- C5 (amended): for every computed-style input whose background-color value
contains "gray" or "grey", and whose existing class tokens include no gray
background token, the classifier never emits a gray background token: the
background-color branch maps only the white and black substrings, and only
the text-color branch recognizes gray. -/
theorem C5_no_gray_background (styles : List (String × String)) (classes : String)
    (hbg : (pyIn "gray" (pyGet styles "backgroundColor") ||
            pyIn "grey" (pyGet styles "backgroundColor")) = true)
    (hex : ∀ t ∈ pySplitWs classes, isGrayBgToken t = false) :
    ∀ t ∈ classifyTokens styles classes, isGrayBgToken t = false := by
  intro t ht
  rcases mem_classifyTokens_cases styles classes t ht with rfl | hraw
  · decide
  · rcases mem_rawClasses_cases styles classes t hraw with hfix | hcar
    · revert hfix
      have hall : ∀ u ∈ twFixedTokens, isGrayBgToken u = false := by decide
      exact hall t
    · have h2 := List.mem_filter.mp hcar
      refine hex t ?_
      by_cases hcl : classes = ""
      · rw [hcl] at h2
        simp at h2
      · simpa [hcl] using h2.1

/-- C5 witness: the amended statement evaluated at a concrete gray
background with a carried-over non-gray token. -/
theorem C5_witness :
    (pyIn "gray" (pyGet [("backgroundColor", "gray")] "backgroundColor") ||
     pyIn "grey" (pyGet [("backgroundColor", "gray")] "backgroundColor")) = true ∧
    (∀ t ∈ pySplitWs "p-4", isGrayBgToken t = false) ∧
    (∀ t ∈ classifyTokens [("backgroundColor", "gray")] "p-4", isGrayBgToken t = false) :=
  ⟨by decide, by decide,
    C5_no_gray_background [("backgroundColor", "gray")] "p-4" (by decide) (by decide)⟩

/-- C8: the classifier is a pure function of its two inputs: any two calls
with identical styles mappings and identical existing class strings return
identical token lists (and identical joined class strings). -/
theorem C8_classifier_deterministic (s₁ s₂ : List (String × String)) (c₁ c₂ : String)
    (hs : s₁ = s₂) (hc : c₁ = c₂) :
    classifyTokens s₁ c₁ = classifyTokens s₂ c₂ ∧
    generateTailwindClasses s₁ c₁ = generateTailwindClasses s₂ c₂ := by
  subst hs; subst hc; exact ⟨rfl, rfl⟩

/-- C8 witness: determinism at a concrete input. -/
theorem C8_witness :
    ([("display", "flex")] = [("display", "flex")] :
      Prop) ∧
    ("p-4 x" = "p-4 x") ∧
    (classifyTokens [("display", "flex")] "p-4 x" = classifyTokens [("display", "flex")] "p-4 x" ∧
     generateTailwindClasses [("display", "flex")] "p-4 x" =
       generateTailwindClasses [("display", "flex")] "p-4 x") :=
  ⟨rfl, rfl, C8_classifier_deterministic _ _ _ _ rfl rfl⟩

/-- C10: a whitespace-separated token of the existing class attribute is
carried over exactly when it matches one of the eight recognizer patterns;
bare color tokens without a shade suffix (text-black, text-white, bg-white,
bg-black) never match, even though the style-driven branches emit exactly
those tokens. -/
theorem C10_existing_class_carryover (classes t : String)
    (ht : t ∈ pySplitWs classes) :
    (t ∈ existingCarried classes ↔ isTailwindClass t = true) ∧
    isTailwindClass "text-black" = false ∧
    isTailwindClass "text-white" = false ∧
    isTailwindClass "bg-white" = false ∧
    isTailwindClass "bg-black" = false ∧
    classifyTokens [("color", "rgb(0, 0, 0)")] "" = ["text-black"] ∧
    classifyTokens [("color", "rgb(255, 255, 255)")] "" = ["text-white"] ∧
    classifyTokens [("backgroundColor", "rgb(255, 255, 255)")] "" = ["bg-white"] ∧
    classifyTokens [("backgroundColor", "rgb(0, 0, 0)")] "" = ["bg-black"] ∧
    classifyTokens [] "text-black text-white bg-white bg-black" = ["p-2"] := by
  refine ⟨?_, by decide, by decide, by decide, by decide, by decide, by decide,
    by decide, by decide, by decide⟩
  unfold existingCarried
  constructor
  · intro hm
    exact (List.mem_filter.mp hm).2
  · intro hmatch
    refine List.mem_filter.mpr ⟨?_, hmatch⟩
    by_cases hcl : classes = ""
    · subst hcl
      have : pySplitWs "" = [] := rfl
      rw [this] at ht
      exact absurd ht (List.not_mem_nil t)
    · simpa [hcl] using ht

/-- C10 witness: the carryover equivalence at a concrete token. -/
theorem C10_witness :
    ("p-4" ∈ pySplitWs "p-4") ∧
    ("p-4" ∈ existingCarried "p-4" ↔ isTailwindClass "p-4" = true) :=
  ⟨by decide, (C10_existing_class_carryover "p-4" "p-4" (by decide)).1⟩

/-- C6: for every non-self-closing element whose cleaned text exceeds 50
characters, the text emitted in the generated markup is exactly the first 50
characters of the cleaned text followed by the ellipsis marker. -/
theorem C6_long_text_truncated (e : Element) (ind : Nat)
    (htag : selfClosingTags.contains e.tag = false)
    (hlen : (cleanText e.text).length > 50) :
    elementToJsx e ind =
      "<" ++ e.tag ++ getJsxAttributes e (generateTailwindClasses e.styles e.classes) ++ ">" ++
        (pyTruncate (cleanText e.text) 50 ++ "...") ++ "</" ++ e.tag ++ ">" ∧
    (pyTruncate (cleanText e.text) 50).length = 50 := by
  constructor
  · unfold elementToJsx
    simp only [htag]
    rw [if_neg (by simp)]
    rw [if_pos hlen]
  · have hl : (cleanText e.text).data.length > 50 := hlen
    simp only [pyTruncate, String.length, List.length_take]
    omega

/-- C6 witness: the truncation at a concrete 60-character element. -/
theorem C6_witness :
    selfClosingTags.contains elLong.tag = false ∧
    (cleanText elLong.text).length > 50 ∧
    (elementToJsx elLong 8 =
      "<" ++ elLong.tag ++
        getJsxAttributes elLong (generateTailwindClasses elLong.styles elLong.classes) ++ ">" ++
        (pyTruncate (cleanText elLong.text) 50 ++ "...") ++ "</" ++ elLong.tag ++ ">" ∧
     (pyTruncate (cleanText elLong.text) 50).length = 50) :=
  ⟨by decide, by decide, C6_long_text_truncated elLong 8 (by decide) (by decide)⟩

/-- The classifier reads its style properties only under the camelCase names
produced by the snapshot script. -/
theorem classify_reads_styleKeys (s₁ s₂ : List (String × String)) (c : String)
    (h : ∀ k ∈ styleKeys, pyGet s₁ k = pyGet s₂ k) :
    classifyTokens s₁ c = classifyTokens s₂ c := by
  have h1 := h "display" (by decide)
  have h2 := h "fontSize" (by decide)
  have h3 := h "fontWeight" (by decide)
  have h4 := h "color" (by decide)
  have h5 := h "backgroundColor" (by decide)
  have h6 := h "padding" (by decide)
  have h7 := h "borderRadius" (by decide)
  have h8 := h "boxShadow" (by decide)
  unfold classifyTokens rawClasses displayClasses fontSizeClasses fontWeightClasses
    colorClasses bgColorClasses paddingClasses borderRadiusClasses boxShadowClasses
  rw [h1, h2, h3, h4, h5, h6, h7, h8]

/-- C9 counterexample: the constructed styles mapping is keyed by the
camelCase accessor names of the snapshot script, not by the hyphenated CSS
property names the claim lists: `font-size` is not among the keys. -/
theorem C9_counterexample :
    (snapshotData node9).styles.map Prod.fst ≠
      ["display", "position", "width", "height", "padding", "margin", "font-size",
       "font-weight", "color", "background-color", "border-radius", "box-shadow"] ∧
    ¬ ("font-size" ∈ (snapshotData node9).styles.map Prod.fst) ∧
    ("fontSize" ∈ (snapshotData node9).styles.map Prod.fst) := by
  decide

/-- C9 (amended): every constructed element's styles mapping has exactly the
12 camelCase keys display, position, width, height, padding, margin,
fontSize, fontWeight, color, backgroundColor, borderRadius, boxShadow, each
bound to that node's computed value, and the classifier reads the style
properties only under those same names. -/
theorem C9_twelve_style_keys (el : RawNode) :
    (snapshotData el).styles.map Prod.fst = styleKeys ∧
    (snapshotData el).styles = styleKeys.map (fun k => (k, pyGet el.computed k)) ∧
    (∀ s₁ s₂ c, (∀ k ∈ styleKeys, pyGet s₁ k = pyGet s₂ k) →
      classifyTokens s₁ c = classifyTokens s₂ c) :=
  ⟨rfl, rfl, fun s₁ s₂ c h => classify_reads_styleKeys s₁ s₂ c h⟩

/-- C9 witness: the key list at a concrete node, and insensitivity of the
classifier to entries outside the 12 keys. -/
theorem C9_witness :
    (snapshotData node9).styles.map Prod.fst = styleKeys ∧
    (∀ k ∈ styleKeys,
      pyGet [("display", "flex"), ("zzz", "1")] k = pyGet [("display", "flex")] k) ∧
    classifyTokens [("display", "flex"), ("zzz", "1")] "" =
      classifyTokens [("display", "flex")] "" :=
  ⟨(C9_twelve_style_keys node9).1, by decide,
   (C9_twelve_style_keys node9).2.2 [("display", "flex"), ("zzz", "1")]
     [("display", "flex")] "" (by decide)⟩

/-- Unfolding of the extraction fold: the result is the concatenation of the
per-rule contributions, in rule order. -/
theorem extract_foldl_general (page : PageModel) :
    ∀ (rules : List (String × String)) (acc : List Element),
      rules.foldl
        (fun elements sc =>
          match page.queryAll sc.1 with
          | .error _ => elements
          | .ok handles =>
            elements ++ (handles.take 10).filterMap (fun h => extractElementData h sc.2))
        acc = acc ++ (rules.map (ruleContrib page)).flatten := by
  intro rules
  induction rules with
  | nil => intro acc; simp
  | cons r rs ih =>
    intro acc
    simp only [List.foldl_cons, List.map_cons, List.flatten_cons]
    cases hq : page.queryAll r.1 with
    | error e =>
      rw [ih]
      simp [ruleContrib, hq]
    | ok handles =>
      rw [ih]
      simp [ruleContrib, hq, List.append_assoc]

/-- C4: extraction walks the seven rules in their fixed order and outputs the
concatenation of per-rule contributions; each rule contributes at most its
first 10 matched handles (visibility/text filtering happens after the cap),
in document order; a failing rule contributes nothing; every contributed
element carries the rule's category; the same node matching two rules is
captured once per rule without cross-category deduplication (concrete page
`pageDup`), and ten invisible matches before a visible one exhaust the cap
(concrete page `pageCap`). -/
theorem C4_extraction_shape (page : PageModel) :
    extractElements page = (selectors.map (ruleContrib page)).flatten ∧
    (∀ sc, (ruleContrib page sc).length ≤ 10) ∧
    (∀ sc e, page.queryAll sc.1 = .error e → ruleContrib page sc = []) ∧
    (∀ sc handles, page.queryAll sc.1 = .ok handles →
      ruleContrib page sc =
        (handles.take 10).filterMap (fun h => extractElementData h sc.2)) ∧
    (∀ sc el, el ∈ ruleContrib page sc → el.category = sc.2) ∧
    (extractElements pageDup).map Element.category = ["link", "content"] ∧
    (extractElements pageDup).map Element.tag = ["a", "a"] ∧
    extractElements pageCap = [] := by
  refine ⟨?_, ?_, ?_, ?_, ?_, by decide, by decide, by decide⟩
  · unfold extractElements
    exact (extract_foldl_general page selectors []).trans (by simp)
  · intro sc
    unfold ruleContrib
    cases hq : page.queryAll sc.1 with
    | error e => simp
    | ok handles =>
      refine le_trans (List.length_filterMap_le _ _) ?_
      rw [List.length_take]
      exact min_le_left _ _
  · intro sc e h
    unfold ruleContrib
    rw [h]
  · intro sc handles h
    unfold ruleContrib
    rw [h]
  · intro sc el hmem
    unfold ruleContrib at hmem
    cases hq : page.queryAll sc.1 with
    | error e => rw [hq] at hmem; simp at hmem
    | ok handles =>
      rw [hq] at hmem
      rcases List.mem_filterMap.mp hmem with ⟨a, _, ha⟩
      cases a with
      | error e2 => simp [extractElementData] at ha
      | ok n =>
        simp only [extractElementData] at ha
        split at ha
        · simp at ha
        · injection ha with hh
          subst hh
          rfl

/-- C4 witness: the per-rule shape instantiated on a concrete page and rule. -/
theorem C4_witness :
    pageDup.queryAll "img[src]" = .ok [] ∧
    ruleContrib pageDup ("img[src]", "image") =
      (([] : List (Except String RawNode)).take 10).filterMap
        (fun h => extractElementData h "image") :=
  ⟨rfl, (C4_extraction_shape pageDup).2.2.2.1 ("img[src]", "image") [] rfl⟩

/-- C2 counterexample: a crawl that fails after the page was opened (here the
navigation returns no response) returns with the page still open — the close
call sits on the success path only, so the claimed
"closed regardless of failure" is false. -/
theorem C2_counterexample :
    (crawl true (.ok pageNoResp) "http://x").pageOpened = true ∧
    (crawl true (.ok pageNoResp) "http://x").pageClosed = false ∧
    exceptIsOk (crawl true (.ok pageNoResp) "http://x").result = false := by
  decide

/-- C2 (amended): every crawl call opens at most one page; the page is closed
exactly when the whole call succeeds; a failure occurring after the page was
opened leaves the page unclosed. -/
theorem C2_page_lifecycle (init : Bool) (np : Except String PageModel) (url : String) :
    (exceptIsOk (crawl init np url).result = true →
      (crawl init np url).pageOpened = true ∧ (crawl init np url).pageClosed = true) ∧
    ((crawl init np url).pageClosed = true → exceptIsOk (crawl init np url).result = true) ∧
    ((crawl init np url).pageOpened = false → (crawl init np url).pageClosed = false) := by
  unfold crawl
  cases init with
  | false => simp [exceptIsOk]
  | true =>
    cases np with
    | error e => simp [exceptIsOk]
    | ok page =>
      obtain ⟨gotoR, waitR, titleR, closeR, queryF⟩ := page
      dsimp only
      cases gotoR with
      | error e => simp [exceptIsOk]
      | ok resp =>
        cases resp with
        | none => simp [exceptIsOk]
        | some status =>
          by_cases hs : 400 ≤ status
          · simp [hs, exceptIsOk]
          · simp only [if_neg hs]
            cases waitR with
            | error e => simp [exceptIsOk]
            | ok u =>
              cases titleR with
              | error e => simp [exceptIsOk]
              | ok t =>
                cases closeR with
                | error e => simp [exceptIsOk]
                | ok u2 => simp [exceptIsOk]

/-- C2 witness: on a fully successful call the page is opened and closed. -/
theorem C2_witness :
    exceptIsOk (crawl true (.ok pageOkEmpty) "http://x").result = true ∧
    ((crawl true (.ok pageOkEmpty) "http://x").pageOpened = true ∧
     (crawl true (.ok pageOkEmpty) "http://x").pageClosed = true) :=
  ⟨by decide, (C2_page_lifecycle true (.ok pageOkEmpty) "http://x").1 (by decide)⟩

/-- C3: crawl fails exactly when the browser session is not initialized,
opening the page throws, navigation throws, navigation returns no response
or an HTTP status at least 400, or the wait / title / close step throws;
otherwise it returns the CrawlResult carrying the url, the page title and
the extracted element sequence. -/
theorem C3_crawl_contract (init : Bool) (np : Except String PageModel) (url : String) :
    (exceptIsOk (crawl init np url).result = !crawlFailureCondition init np) ∧
    (∀ page status title,
      init = true → np = .ok page → page.gotoResult = .ok (some status) → status < 400 →
      page.waitResult = .ok () → page.titleResult = .ok title → page.closeResult = .ok () →
      (crawl init np url).result =
        .ok { url := url, title := title, elements := extractElements page }) := by
  constructor
  · unfold crawl crawlFailureCondition
    cases init with
    | false => simp [exceptIsOk]
    | true =>
      cases np with
      | error e => simp [exceptIsOk]
      | ok page =>
        obtain ⟨gotoR, waitR, titleR, closeR, queryF⟩ := page
        dsimp only
        cases gotoR with
        | error e => simp [exceptIsOk]
        | ok resp =>
          cases resp with
          | none => simp [exceptIsOk]
          | some status =>
            by_cases hs : 400 ≤ status
            · simp [hs, exceptIsOk]
            · simp only [if_neg hs]
              cases waitR with
              | error e => simp [hs, exceptIsOk]
              | ok u =>
                cases titleR with
                | error e => simp [hs, exceptIsOk]
                | ok t =>
                  cases closeR with
                  | error e => simp [hs, exceptIsOk]
                  | ok u2 => simp [hs, exceptIsOk]
  · intro page status title h1 h2 h3 h4 h5 h6 h7
    subst h1
    subst h2
    have hs : ¬ 400 ≤ status := by omega
    unfold crawl
    simp [h3, h5, h6, h7, hs]

/-- C3 witness: the contract instantiated on a fully successful concrete
environment. -/
theorem C3_witness :
    (exceptIsOk (crawl true (.ok pageOkEmpty) "u").result =
      !crawlFailureCondition true (.ok pageOkEmpty)) ∧
    (crawl true (.ok pageOkEmpty) "u").result =
      .ok { url := "u", title := "T", elements := extractElements pageOkEmpty } :=
  ⟨(C3_crawl_contract true (.ok pageOkEmpty) "u").1,
   (C3_crawl_contract true (.ok pageOkEmpty) "u").2 pageOkEmpty 200 "T"
     rfl rfl rfl (by omega) rfl rfl rfl⟩

/-- Decoding a digit string after appending one digit character. -/
theorem charsToNat_append_digit (l : List Char) (c : Char) :
    charsToNat (l ++ [c]) = charsToNat l * 10 + (c.toNat - 48) := by
  simp [charsToNat, List.foldl_append]

/-- Code point of the rendered digit. -/
theorem digit_char_toNat (d : Nat) (hd : d < 10) : (Char.ofNat (48 + d)).toNat = 48 + d := by
  interval_cases d <;> decide

/-- With enough fuel, the fueled decimal rendering round-trips through the
decoder. -/
theorem decDigitsAux_val : ∀ fuel n, n ≤ fuel → charsToNat (decDigitsAux fuel n) = n := by
  intro fuel
  induction fuel with
  | zero =>
    intro n hn
    interval_cases n
    simp [decDigitsAux, charsToNat]
  | succ fuel ih =>
    intro n hn
    unfold decDigitsAux
    by_cases h0 : n = 0
    · simp [h0, charsToNat]
    · rw [if_neg h0, charsToNat_append_digit]
      have hdiv : n / 10 ≤ fuel := by
        have := Nat.div_lt_self (Nat.pos_of_ne_zero h0) (by norm_num : 1 < 10)
        omega
      rw [ih (n / 10) hdiv]
      have hmod : n % 10 < 10 := Nat.mod_lt _ (by norm_num)
      rw [digit_char_toNat _ hmod]
      omega

/-- Decoding inverts the decimal rendering. -/
theorem charsToNat_natToDecimal (n : Nat) : charsToNat (natToDecimal n).data = n := by
  unfold natToDecimal
  by_cases h : n = 0
  · subst h
    decide
  · rw [if_neg h]
    exact decDigitsAux_val n n le_rfl

/-- The decimal rendering is injective. -/
theorem natToDecimal_injective : Function.Injective natToDecimal := by
  intro m n h
  have hm := charsToNat_natToDecimal m
  rw [h, charsToNat_natToDecimal n] at hm
  exact hm.symm

/-- With stem and suffix fixed, distinct counters give distinct candidate
names. -/
theorem mkCandidate_inj (stem sfx : String) {j k : Nat}
    (h : mkCandidate stem sfx j = mkCandidate stem sfx k) : j = k := by
  unfold mkCandidate at h
  have hd := congrArg String.data h
  simp only [String.data_append] at hd
  have h1 := List.append_cancel_right hd
  have h2 := List.append_cancel_left h1
  have hj := charsToNat_natToDecimal j
  rw [h2, charsToNat_natToDecimal k] at hj
  exact hj.symm

/-- Pigeonhole over the directory: among the first `length + 1` counters some
candidate name is free. -/
theorem exists_free_candidate (ex : List String) (stem sfx : String) :
    ∃ j, 1 ≤ j ∧ j ≤ ex.length + 1 ∧ mkCandidate stem sfx j ∉ ex := by
  by_contra hcon
  push_neg at hcon
  have hinj : Set.InjOn (fun j => mkCandidate stem sfx j)
      ↑(Finset.Icc 1 (ex.length + 1)) :=
    fun a _ b _ hab => mkCandidate_inj stem sfx hab
  have hmaps : ∀ j ∈ Finset.Icc 1 (ex.length + 1),
      mkCandidate stem sfx j ∈ ex.toFinset := by
    intro j hj
    simp only [Finset.mem_Icc] at hj
    exact List.mem_toFinset.mpr (hcon j hj.1 hj.2)
  have hcard := Finset.card_le_card_of_injOn _ hmaps hinj
  rw [Nat.card_Icc] at hcard
  have hlen := ex.toFinset_card_le
  omega

/-- The fueled loop returns the first free candidate at or after the starting
counter, provided a free one lies within the fuel budget. -/
theorem findFreeName_spec (ex : List String) (stem sfx : String) :
    ∀ fuel k, (∃ j, k ≤ j ∧ j < k + fuel + 1 ∧ mkCandidate stem sfx j ∉ ex) →
      ∃ m, k ≤ m ∧ findFreeName ex stem sfx fuel k = mkCandidate stem sfx m ∧
        mkCandidate stem sfx m ∉ ex ∧
        ∀ j, k ≤ j → j < m → mkCandidate stem sfx j ∈ ex := by
  intro fuel
  induction fuel with
  | zero =>
    intro k hex
    obtain ⟨j, hj1, hj2, hj3⟩ := hex
    have hjk : j = k := by omega
    subst hjk
    exact ⟨j, le_rfl, rfl, hj3, fun i h1 h2 => absurd h2 (by omega)⟩
  | succ fuel ih =>
    intro k hex
    unfold findFreeName
    by_cases hk : mkCandidate stem sfx k ∈ ex
    · rw [if_pos hk]
      obtain ⟨j, hj1, hj2, hj3⟩ := hex
      have hjk : j ≠ k := by
        intro he
        rw [he] at hj3
        exact hj3 hk
      obtain ⟨m, hm1, hm2, hm3, hm4⟩ := ih (k + 1) ⟨j, by omega, by omega, hj3⟩
      refine ⟨m, by omega, hm2, hm3, fun i hi1 hi2 => ?_⟩
      rcases Nat.eq_or_lt_of_le hi1 with he | hlt
      · rw [← he]
        exact hk
      · exact hm4 i (by omega) hi2
    · rw [if_neg hk]
      exact ⟨k, le_rfl, rfl, hk, fun i h1 h2 => absurd h2 (by omega)⟩

/-- Path resolution never picks an existing name, and when the requested name
is taken it returns the first free suffixed candidate. -/
theorem resolvePath_spec (ex : List String) (name : String) :
    resolvePath ex name ∉ ex ∧
    (name ∈ ex → ∃ k, 1 ≤ k ∧
      resolvePath ex name =
        mkCandidate (pathSplitExt name).1 (pathSplitExt name).2 k ∧
      ∀ j, 1 ≤ j → j < k →
        mkCandidate (pathSplitExt name).1 (pathSplitExt name).2 j ∈ ex) := by
  unfold resolvePath
  by_cases hmem : name ∈ ex
  · rw [if_pos hmem]
    obtain ⟨j0, hj1, hj2, hj3⟩ :=
      exists_free_candidate ex (pathSplitExt name).1 (pathSplitExt name).2
    obtain ⟨m, hm1, hm2, hm3, hm4⟩ :=
      findFreeName_spec ex (pathSplitExt name).1 (pathSplitExt name).2
        (ex.length + 1) 1 ⟨j0, hj1, by omega, hj3⟩
    constructor
    · dsimp only
      rw [hm2]
      exact hm3
    · intro _
      refine ⟨m, hm1, ?_, hm4⟩
      dsimp only
      rw [hm2]
  · rw [if_neg hmem]
    exact ⟨hmem, fun h => absurd h hmem⟩

/-- C7: saving resolves to a name not already present (no file is
overwritten), keeps every existing file (none deleted), appends the numeric
suffix `_k` before the extension choosing the first free counter, and on the
concrete directory states of the claim produces `Foo_1.jsx` then
`Foo_2.jsx`. -/
theorem C7_unique_output_path (fs : List (String × String)) (filepath content : String) :
    (saveFile fs filepath content).2 ∉ fs.map Prod.fst ∧
    (∀ e ∈ fs, e ∈ (saveFile fs filepath content).1) ∧
    (saveFile fs filepath content).1 =
      fs ++ [((saveFile fs filepath content).2, content)] ∧
    (filepath ∈ fs.map Prod.fst → ∃ k, 1 ≤ k ∧
      (saveFile fs filepath content).2 =
        mkCandidate (pathSplitExt filepath).1 (pathSplitExt filepath).2 k ∧
      ∀ j, 1 ≤ j → j < k →
        mkCandidate (pathSplitExt filepath).1 (pathSplitExt filepath).2 j ∈
          fs.map Prod.fst) ∧
    resolvePath ["Foo.jsx"] "Foo.jsx" = "Foo_1.jsx" ∧
    resolvePath ["Foo.jsx", "Foo_1.jsx"] "Foo.jsx" = "Foo_2.jsx" :=
  ⟨(resolvePath_spec (fs.map Prod.fst) filepath).1,
   fun e he => List.mem_append_left _ he,
   rfl,
   (resolvePath_spec (fs.map Prod.fst) filepath).2,
   by decide, by decide⟩

/-- C7 witness: saving over an occupied `Foo.jsx` lands on a fresh suffixed
name. -/
theorem C7_witness :
    ("Foo.jsx" ∈ ([("Foo.jsx", "old")].map Prod.fst)) ∧
    ((saveFile [("Foo.jsx", "old")] "Foo.jsx" "new").2 ∉
      [("Foo.jsx", "old")].map Prod.fst) ∧
    (∃ k, 1 ≤ k ∧
      (saveFile [("Foo.jsx", "old")] "Foo.jsx" "new").2 =
        mkCandidate (pathSplitExt "Foo.jsx").1 (pathSplitExt "Foo.jsx").2 k ∧
      ∀ j, 1 ≤ j → j < k →
        mkCandidate (pathSplitExt "Foo.jsx").1 (pathSplitExt "Foo.jsx").2 j ∈
          [("Foo.jsx", "old")].map Prod.fst) :=
  ⟨by decide,
   (C7_unique_output_path [("Foo.jsx", "old")] "Foo.jsx" "new").1,
   (C7_unique_output_path [("Foo.jsx", "old")] "Foo.jsx" "new").2.2.2.1 (by decide)⟩

end DCrawl
